import Mathlib

/-!
Verification of the floating on-screen clock utility (clock.py).

The definitions below are a shallow embedding of the parts of clock.py that
the verified properties talk about: the timer state machine kept in the
fields of ClockController (timer_total, timer_remaining, timer_running,
timer_active, timer_finished, flash_on), the timer-duration parser
ClockController._parseTimerInput together with the semantics of the Python
built-in int() on strings, the network-counter bookkeeping of
ClockController.tick, the configuration loader load_config / save_config
over a model of JSON documents, and the layout arithmetic (_fontSize,
_extraLineCount, _windowSize, _cornerRadius) over exact rationals in place
of Python floats.
-/

namespace Clock

/-! ## Python string and int semantics

clock.py parses user input with text.split, str.strip and int(...).  The
functions below model those built-ins for ASCII text: str.strip removes
leading and trailing whitespace; int(...) strips whitespace, accepts one
optional sign and a nonempty digit run in which underscores may appear
between digits; str.split(sep) splits on every occurrence of the one-char
separator, keeping empty pieces. -/

/-- The default whitespace characters removed by Python str.strip (ASCII):
space, tab, newline, carriage return, vertical tab, form feed. -/
def isPySpace (c : Char) : Bool :=
  c == ' ' || c == '\t' || c == '\n' || c == '\r' ||
    c == Char.ofNat 11 || c == Char.ofNat 12

/-- Python str.strip on a list of characters. -/
def pyStripList (l : List Char) : List Char :=
  ((l.dropWhile isPySpace).reverse.dropWhile isPySpace).reverse

/-- Python str.strip on a string. -/
def pyStrip (s : String) : String :=
  String.mk (pyStripList s.toList)

/-- Digit run accepted by Python int(...) after the optional sign: decimal
digits, with single underscores allowed between two digits only.  The
caller guarantees the list starts with a digit. -/
def pyDigitsAux : List Char → Nat → Option Nat
  | [], acc => some acc
  | '_' :: c :: rest, acc =>
      if c.isDigit then pyDigitsAux (c :: rest) acc else none
  | ['_'], _ => none
  | c :: rest, acc =>
      if c.isDigit then pyDigitsAux rest (acc * 10 + (c.toNat - 48)) else none

/-- Digit run accepted by Python int(...): nonempty, starts with a digit. -/
def pyDigits (l : List Char) : Option Nat :=
  match l with
  | [] => none
  | c :: _ => if c.isDigit then pyDigitsAux l 0 else none

/-- Python int(s) for a string s: strip whitespace, optional single sign,
then a digit run; any other shape raises ValueError, modelled as none. -/
def pyInt (s : String) : Option Int :=
  match pyStripList s.toList with
  | '+' :: rest => (pyDigits rest).map (fun n => (n : Int))
  | '-' :: rest => (pyDigits rest).map (fun n => -(n : Int))
  | l => (pyDigits l).map (fun n => (n : Int))

/-- Python text.split(sep) for a single-character separator: splits at every
occurrence, keeping empty pieces; the result is always nonempty. -/
def pySplit (sep : Char) : List Char → List (List Char)
  | [] => [[]]
  | c :: rest =>
    match pySplit sep rest with
    | [] => [[]]
    | cur :: parts =>
        if c = sep then [] :: cur :: parts else (c :: cur) :: parts

/-! ## The timer state machine

ClockController.init (clock.py lines 318-325) keeps the countdown state in
six instance fields; the menu actions timerStartFromInput_,
timerStartPreset_, timerPause_, timerReset_ and the per-second tick
(lines 849-926 and 978-1007) mutate them.  We model the fields as a record
and each mutation as a function on it. -/

/-- The runtime-only timer fields of ClockController. -/
structure TimerState where
  timer_total : Int
  timer_remaining : Int
  timer_running : Bool
  timer_active : Bool
  timer_finished : Bool
  flash_on : Bool
deriving DecidableEq, Repr

/-- The timer fields as set by ClockController.init (clock.py 318-325). -/
def initTimerState : TimerState :=
  { timer_total := 0, timer_remaining := 0, timer_running := false,
    timer_active := false, timer_finished := false, flash_on := true }

/-- ClockController._parseTimerInput (clock.py 886-900): split on a colon
and combine 1, 2 or 3 int(...) components with positional weights; any
int(...) failure or any other number of components yields None. -/
def _parseTimerInput (text : String) : Option Int :=
  match (pySplit ':' text.toList).map (fun p => String.mk p) with
  | [a, b, c] =>
    match pyInt a, pyInt b, pyInt c with
    | some h, some m, some s => some (h * 3600 + m * 60 + s)
    | _, _, _ => none
  | [a, b] =>
    match pyInt a, pyInt b with
    | some m, some s => some (m * 60 + s)
    | _, _ => none
  | [a] => pyInt a
  | _ => none

/-- The state mutation of timerStartFromInput_ (clock.py 851-869) given the
already-parsed duration: None or a non-positive value returns with no state
change; otherwise all six timer fields are set. -/
def timerStartWithSeconds (seconds : Option Int) (st : TimerState) : TimerState :=
  match seconds with
  | none => st
  | some s =>
      if s ≤ 0 then st
      else
        { timer_total := s, timer_remaining := s, timer_running := true,
          timer_active := true, timer_finished := false, flash_on := true }

/-- timerStartFromInput_ (clock.py 851-869): strip the text field content,
parse it with _parseTimerInput, and start the timer unless parsing failed
or gave a non-positive duration. -/
def timerStartFromInput_ (text : String) (st : TimerState) : TimerState :=
  timerStartWithSeconds (_parseTimerInput (pyStrip text)) st

/-- The preset durations offered by the Timer submenu
(clock.py 666-667). -/
def timerPresets : List Int := [15 * 60, 30 * 60, 3600, 7200, 10800]

/-- timerStartPreset_ (clock.py 871-884): start unconditionally with the
seconds value carried by the chosen menu item. -/
def timerStartPreset_ (seconds : Int) (_st : TimerState) : TimerState :=
  { timer_total := seconds, timer_remaining := seconds, timer_running := true,
    timer_active := true, timer_finished := false, flash_on := true }

/-- timerPause_ (clock.py 902-905): clear timer_running, nothing else. -/
def timerPause_ (st : TimerState) : TimerState :=
  { st with timer_running := false }

/-- timerReset_ (clock.py 907-917): back to the inactive state with
flash_on restored to true. -/
def timerReset_ (st : TimerState) : TimerState :=
  { st with
    timer_running := false
    timer_active := false
    timer_finished := false
    timer_remaining := 0
    timer_total := 0
    flash_on := true }

/-- The timer-advancing portion of ClockController.tick
(clock.py 984-1007): when the timer is active and running with time left,
decrement, and on reaching zero stop and mark finished within the same
tick; afterwards, while finished, toggle flash_on once per tick.  When the
timer is inactive the timer fields are untouched. -/
def tickTimer (st : TimerState) : TimerState :=
  if st.timer_active then
    let st1 :=
      if st.timer_running ∧ 0 < st.timer_remaining then
        let r := st.timer_remaining - 1
        if r ≤ 0 then
          { st with
            timer_remaining := 0
            timer_running := false
            timer_finished := true }
        else { st with timer_remaining := r }
      else st
    if st1.timer_finished then { st1 with flash_on := !st1.flash_on } else st1
  else st

/-- The invariant of the timer fields stated in the specification. -/
def TimerInv (st : TimerState) : Prop :=
  (st.timer_running = true → st.timer_active = true) ∧
  (st.timer_finished = true →
    st.timer_active = true ∧ st.timer_remaining = 0 ∧
      st.timer_running = false) ∧
  0 ≤ st.timer_remaining ∧ st.timer_remaining ≤ st.timer_total

instance (st : TimerState) : Decidable (TimerInv st) := by
  unfold TimerInv; infer_instance

/-! ## Tick scheduling

The tick selector is registered with two repeating NSTimers: setupWindow
schedules one with a 1.0-second interval (clock.py 447-449) and main
schedules another with a 0.5-second interval, commented as a nudge that
keeps the run loop delivering Python signal handlers (clock.py 1062-1064).
Both target the same tick method that advances the countdown. -/

/-- The intervals, in milliseconds, of the repeating timers registered
with the tick selector: 1000 ms in setupWindow, 500 ms in main. -/
def tickTimerIntervalsMs : List Nat := [1000, 500]

/-- Total number of tick firings during one second of wall time: a
repeating timer of interval i milliseconds fires 1000 / i times per
second. -/
def tickFiringsPerSecond : Nat :=
  (tickTimerIntervalsMs.map (fun i => 1000 / i)).sum

/-! ## Network statistics bookkeeping

ClockController.init (clock.py 327-332) stores the cumulative byte
counters sampled at startup and zero speeds; the network block of tick
(clock.py 1014-1025) runs only when _showNetStats() is true, and then
overwrites the stored counters with the fresh sample and records the
difference as the speeds.  A tick with the feature hidden does not touch
any of the four fields.  Counter samples are passed in as pairs
(bytes_sent, bytes_recv). -/

/-- The network-statistics fields of ClockController. -/
structure NetState where
  last_bytes_sent : Nat
  last_bytes_recv : Nat
  net_up_speed : Int
  net_down_speed : Int
deriving DecidableEq, Repr

/-- The network fields as set by ClockController.init (clock.py 327-332)
from the startup counter sample. -/
def initNetState (counters : Nat × Nat) : NetState :=
  { last_bytes_sent := counters.1, last_bytes_recv := counters.2,
    net_up_speed := 0, net_down_speed := 0 }

/-- The network portion of ClockController.tick (clock.py 1014-1025):
guarded by _showNetStats(); when visible, the delta against the stored
counters becomes the speed and the stored counters are replaced by the
fresh sample; when hidden, nothing happens. -/
def tickNet (showNetStats : Bool) (counters : Nat × Nat) (st : NetState) :
    NetState :=
  if showNetStats then
    { last_bytes_sent := counters.1, last_bytes_recv := counters.2,
      net_up_speed := (counters.1 : Int) - (st.last_bytes_sent : Int),
      net_down_speed := (counters.2 : Int) - (st.last_bytes_recv : Int) }
  else st

/-! ## The configuration store

load_config (clock.py 95-106) reads CONFIG_FILE with json.load, treats
FileNotFoundError and json.JSONDecodeError as an empty document, migrates
a legacy size key, and fills every missing DEFAULT_CONFIG key with
setdefault.  save_config (clock.py 109-112) serializes the document with
json.dump.  JSON documents are modelled by JValue, with numbers as exact
rationals; dictionaries are association lists with distinct keys, in
insertion order, as produced by json.load.  The outcome of load_config is
either a returned document or an uncaught Python exception, named by the
exception type. -/

/-- A JSON value as produced by json.load. -/
inductive JValue where
  | null : JValue
  | bool (b : Bool) : JValue
  | num (q : Rat) : JValue
  | str (s : String) : JValue
  | arr (l : List JValue) : JValue
  | obj (l : List (String × JValue)) : JValue

/-- A JSON object: an association list with distinct keys in insertion
order. -/
abbrev JDict := List (String × JValue)

/-- Python k in d for a dict. -/
def dcontains (d : JDict) (k : String) : Bool :=
  d.any (fun p => p.1 == k)

/-- Python d[k] for a dict (None when the key is absent). -/
def dlookup (d : JDict) (k : String) : Option JValue :=
  (d.find? (fun p => p.1 == k)).map (fun p => p.2)

/-- Python d.pop(k) for a dict: the remaining entries. -/
def dremove (d : JDict) (k : String) : JDict :=
  d.filter (fun p => !(p.1 == k))

/-- Python d.setdefault(k, v): append the pair at the end when the key is
absent, otherwise leave the dict unchanged. -/
def dsetdefault (d : JDict) (k : String) (v : JValue) : JDict :=
  if dcontains d k then d else d ++ [(k, v)]

/-- Python s in l for a list l: true when some element equals the string
s; only str elements can. -/
def jarrHasStr (l : List JValue) (s : String) : Bool :=
  l.any (fun v => match v with | .str t => t == s | _ => false)

/-- DEFAULT_CONFIG (clock.py 62-73). -/
def DEFAULT_CONFIG : JDict :=
  [(("scale"), JValue.num 1),
   (("bg_color"), JValue.arr [JValue.num 0, JValue.num 0, JValue.num 0, JValue.num 0.55]),
   (("fg_color"), JValue.arr [JValue.num 1, JValue.num 1, JValue.num 1, JValue.num 1]),
   (("position"), JValue.null),
   (("show_seconds"), JValue.bool true),
   (("show_time_subtext"), JValue.bool true),
   (("show_network_stats"), JValue.bool false),
   (("show_cpu"), JValue.bool false),
   (("show_mem"), JValue.bool false),
   (("show_gpu"), JValue.bool false)]

/-- The legacy size mapping {small, medium, large} with default 1.0 used
by mapping.get(cfg.pop("size"), 1.0) (clock.py 102-103). -/
def sizeToScale (v : JValue) : Rat :=
  match v with
  | .str s =>
      if s = ("small") then 0.5
      else if s = ("medium") then 1
      else if s = ("large") then 1.5
      else 1
  | _ => 1

/-- The legacy-size migration of load_config (clock.py 101-103): when the
document has a size key and no scale key, pop size and append the mapped
scale; popping an unhashable value (array or object) and passing it to
mapping.get raises TypeError. -/
def migrateSize (cfg : JDict) : Except String JDict :=
  if dcontains cfg ("size") && !(dcontains cfg ("scale")) then
    match dlookup cfg ("size") with
    | some (.arr _) => .error ("TypeError")
    | some (.obj _) => .error ("TypeError")
    | some v => .ok (dremove cfg ("size") ++ [(("scale"), JValue.num (sizeToScale v))])
    | none => .ok cfg
  else .ok cfg

/-- The setdefault loop of load_config (clock.py 104-105): fill every
missing DEFAULT_CONFIG key. -/
def mergeDefaults (cfg : JDict) : JDict :=
  DEFAULT_CONFIG.foldl (fun acc p => dsetdefault acc p.1 p.2) cfg

/-- What the config file presents to load_config: absent
(FileNotFoundError), undecodable text (json.JSONDecodeError), or a decoded
JSON value. -/
inductive FileContent where
  | missing : FileContent
  | notJson : FileContent
  | json (j : JValue) : FileContent

/-- The outcome of load_config: a returned document, or a Python exception
escaping to the caller, named by its type. -/
inductive LoadResult where
  | ok (cfg : JDict) : LoadResult
  | raised (e : String) : LoadResult

/-- load_config (clock.py 95-106).  A missing file and undecodable content
are caught and give the empty document, which the setdefault loop fills
with the defaults.  A decoded document that is a JSON object goes through
the size migration and the setdefault loop.  Any other decoded value
raises: numbers, booleans and null fail at the "size" in cfg membership
test (TypeError: not iterable); a string supports the membership test but
has neither pop nor setdefault (AttributeError); an array supports the
membership test, and then either list.pop rejects the string argument
(TypeError, when it contains "size" and not "scale") or setdefault is
missing (AttributeError). -/
def load_config (file : FileContent) : LoadResult :=
  match file with
  | .missing => .ok (mergeDefaults [])
  | .notJson => .ok (mergeDefaults [])
  | .json (.obj cfg) =>
      match migrateSize cfg with
      | .ok cfg2 => .ok (mergeDefaults cfg2)
      | .error e => .raised e
  | .json (.arr l) =>
      if jarrHasStr l ("size") && !(jarrHasStr l ("scale")) then
        .raised ("TypeError")
      else .raised ("AttributeError")
  | .json (.str _) => .raised ("AttributeError")
  | .json (.num _) => .raised ("TypeError")
  | .json (.bool _) => .raised ("TypeError")
  | .json .null => .raised ("TypeError")

/-- save_config (clock.py 109-112) followed by a re-read of the file:
json.dump writes the document and json.load parses it back to the same
JSON object (dump then load is the identity on JSON-representable
documents), so the file content afterwards is the same object. -/
def save_config (cfg : JDict) : FileContent :=
  .json (.obj cfg)

/-! ## Layout arithmetic

The geometry helpers of ClockController (clock.py 342-384) combine the
base dimensions (clock.py 50-60) with the configured scale.  Python float
arithmetic is modelled with exact rationals, and the Python int(...)
conversion applied to a nonnegative float is truncation toward zero.  The
configuration entries the helpers read are modelled as a typed record of
the corresponding _config keys; the unrelated color and position entries
are not consulted by these helpers. -/

/-- Base dimensions at scale 1.0 and the scale bounds (clock.py 50-60). -/
def BASE_FONT : Rat := 48

/-- Base window width at scale 1.0 (clock.py 52). -/
def BASE_WIDTH : Rat := 380

/-- Base window height at scale 1.0 (clock.py 53). -/
def BASE_HEIGHT : Rat := 80

/-- Base corner radius at scale 1.0 (clock.py 54). -/
def BASE_RADIUS : Rat := 12

/-- Subtext font ratio (clock.py 55). -/
def SUBTEXT_FONT_RATIO : Rat := 0.35

/-- Minimum scale (clock.py 58). -/
def MIN_SCALE : Rat := 0.5

/-- Maximum scale (clock.py 59). -/
def MAX_SCALE : Rat := 4.0

/-- Scale step (clock.py 60). -/
def SCALE_STEP : Rat := 0.25

/-- Python int() applied to a number: truncation toward zero. -/
def pyTrunc (q : Rat) : Int :=
  if 0 ≤ q then ⌊q⌋ else -⌊-q⌋

/-- The _config entries consulted by the layout helpers. -/
structure ClockConfig where
  scale : Rat
  show_seconds : Bool
  show_time_subtext : Bool
  show_network_stats : Bool
  show_cpu : Bool
  show_mem : Bool
  show_gpu : Bool

/-- _fontSize (clock.py 342-343): max(8, int(BASE_FONT * scale)). -/
def _fontSize (cfg : ClockConfig) : Int :=
  max 8 (pyTrunc (BASE_FONT * cfg.scale))

/-- _subFontSize (clock.py 345-346). -/
def _subFontSize (cfg : ClockConfig) : Int :=
  max 6 (pyTrunc ((_fontSize cfg : Rat) * SUBTEXT_FONT_RATIO))

/-- _showSubtext (clock.py 348-352): timer active and subtext enabled. -/
def _showSubtext (cfg : ClockConfig) (st : TimerState) : Bool :=
  st.timer_active && cfg.show_time_subtext

/-- _showNetStats (clock.py 354-355). -/
def _showNetStats (cfg : ClockConfig) : Bool :=
  cfg.show_network_stats

/-- _showSysStats (clock.py 357-362). -/
def _showSysStats (cfg : ClockConfig) : Bool :=
  cfg.show_cpu || cfg.show_mem || cfg.show_gpu

/-- _extraLineCount (clock.py 364-372): the number of visible non-primary
lines. -/
def _extraLineCount (cfg : ClockConfig) (st : TimerState) : Nat :=
  (if _showSubtext cfg st then 1 else 0) +
    (if _showNetStats cfg then 1 else 0) +
    (if _showSysStats cfg then 1 else 0)

/-- _windowSize (clock.py 374-381): w = int(BASE_WIDTH * s);
h = int(BASE_HEIGHT * s); when extra lines are visible,
h = int(h * (1 + extra * 0.42)). -/
def _windowSize (cfg : ClockConfig) (st : TimerState) : Int × Int :=
  let s := cfg.scale
  let w := pyTrunc (BASE_WIDTH * s)
  let h := pyTrunc (BASE_HEIGHT * s)
  let extra := _extraLineCount cfg st
  let h2 := if 0 < extra then
      pyTrunc ((h : Rat) * (1 + (extra : Rat) * 0.42))
    else h
  (w, h2)

/-- _cornerRadius (clock.py 383-384): max(4, int(BASE_RADIUS * scale)). -/
def _cornerRadius (cfg : ClockConfig) : Int :=
  max 4 (pyTrunc (BASE_RADIUS * cfg.scale))

/-! ## Helper lemmas about the timer state machine -/

/-- While the timer is active, finished and stopped, one tick only toggles
flash_on. -/
theorem tickTimer_finished_step (st : TimerState)
    (ha : st.timer_active = true) (hf : st.timer_finished = true)
    (hr : st.timer_running = false) :
    tickTimer st = { st with flash_on := !st.flash_on } := by
  simp [tickTimer, ha, hf, hr]

/-- Iterating the tick from an active, finished, stopped state keeps every
field except flash_on unchanged. -/
theorem tickTimer_iterate_frozen (st : TimerState) (k : Nat)
    (ha : st.timer_active = true) (hf : st.timer_finished = true)
    (hr : st.timer_running = false) :
    (tickTimer^[k] st).timer_active = true ∧
    (tickTimer^[k] st).timer_finished = true ∧
    (tickTimer^[k] st).timer_running = false ∧
    (tickTimer^[k] st).timer_remaining = st.timer_remaining ∧
    (tickTimer^[k] st).timer_total = st.timer_total := by
  induction k with
  | zero => exact ⟨ha, hf, hr, rfl, rfl⟩
  | succ n ih =>
      obtain ⟨iha, ihf, ihr, ihrem, ihtot⟩ := ih
      rw [Function.iterate_succ_apply', tickTimer_finished_step _ iha ihf ihr]
      exact ⟨iha, ihf, ihr, ihrem, ihtot⟩

/-- The start mutation establishes the invariant. -/
theorem timerStartWithSeconds_inv (sec : Option Int) (st : TimerState)
    (h : TimerInv st) : TimerInv (timerStartWithSeconds sec st) := by
  cases sec with
  | none => exact h
  | some s =>
      unfold timerStartWithSeconds
      by_cases hs : s ≤ 0
      · simpa [hs] using h
      · simp only [hs, if_false]
        exact ⟨fun _ => rfl, fun hfin => by simp at hfin,
          le_of_lt (not_le.mp hs), le_refl s⟩

/-- Packaging of the invariant for an explicitly given state. -/
theorem TimerInv_mk (tot rem : Int) (run act fin fl : Bool)
    (hra : run = true → act = true)
    (hfa : fin = true → act = true ∧ rem = 0 ∧ run = false)
    (h0 : 0 ≤ rem) (hrt : rem ≤ tot) :
    TimerInv ⟨tot, rem, run, act, fin, fl⟩ := ⟨hra, hfa, h0, hrt⟩

/-- The tick mutation preserves the invariant. -/
theorem tickTimer_inv (st : TimerState) (h : TimerInv st) :
    TimerInv (tickTimer st) := by
  obtain ⟨h1, h2, h3, h4⟩ := h
  obtain ⟨tot, rem, run, act, fin, fl⟩ := st
  simp only at h1 h2 h3 h4
  cases act with
  | false =>
      have hstep : tickTimer ⟨tot, rem, run, false, fin, fl⟩ =
          ⟨tot, rem, run, false, fin, fl⟩ := by
        simp [tickTimer]
      rw [hstep]
      exact TimerInv_mk _ _ _ _ _ _ h1 h2 h3 h4
  | true =>
      cases run with
      | false =>
          cases fin with
          | false =>
              have hstep : tickTimer ⟨tot, rem, false, true, false, fl⟩ =
                  ⟨tot, rem, false, true, false, fl⟩ := by
                simp [tickTimer]
              rw [hstep]
              exact TimerInv_mk _ _ _ _ _ _ h1 h2 h3 h4
          | true =>
              have hstep : tickTimer ⟨tot, rem, false, true, true, fl⟩ =
                  ⟨tot, rem, false, true, true, !fl⟩ := by
                simp [tickTimer]
              rw [hstep]
              exact TimerInv_mk _ _ _ _ _ _ h1 h2 h3 h4
      | true =>
          have hfin : fin = false := by
            cases fin
            · rfl
            · exact absurd (h2 rfl).2.2 (by simp)
          subst hfin
          by_cases hrem : 0 < rem
          · by_cases hle : rem - 1 ≤ 0
            · have hstep : tickTimer ⟨tot, rem, true, true, false, fl⟩ =
                  ⟨tot, 0, false, true, true, !fl⟩ := by
                simp [tickTimer, hrem, hle]
              rw [hstep]
              exact TimerInv_mk _ _ _ _ _ _ (by simp)
                (fun _ => ⟨rfl, rfl, rfl⟩) (le_refl 0) (by omega)
            · have hstep : tickTimer ⟨tot, rem, true, true, false, fl⟩ =
                  ⟨tot, rem - 1, true, true, false, fl⟩ := by
                simp [tickTimer, hrem, hle]
              rw [hstep]
              exact TimerInv_mk _ _ _ _ _ _ (fun _ => rfl)
                (by simp) (by omega) (by omega)
          · have hstep : tickTimer ⟨tot, rem, true, true, false, fl⟩ =
                ⟨tot, rem, true, true, false, fl⟩ := by
              simp [tickTimer, hrem]
            rw [hstep]
            exact TimerInv_mk _ _ _ _ _ _ h1 h2 h3 h4

/-! ## Claim theorems: timer behavior -/

/-- Claim C1: starting with a parsed duration of 0 or -5 makes no state
change (so from the initial state the timer stays inactive); after
start(10), nine ticks leave remaining = 1 with the timer still running;
the tenth tick reaches remaining = 0, stops the timer and marks it
finished within that same tick; and every subsequent tick toggles flash_on
while leaving remaining, total, active and finished unchanged. -/
theorem c1_timer_lifecycle :
    (∀ st : TimerState, timerStartWithSeconds (some 0) st = st) ∧
    (∀ st : TimerState, timerStartWithSeconds (some (-5)) st = st) ∧
    initTimerState.timer_active = false ∧
    (tickTimer^[9] (timerStartWithSeconds (some 10) initTimerState)).timer_remaining = 1 ∧
    (tickTimer^[9] (timerStartWithSeconds (some 10) initTimerState)).timer_running = true ∧
    (tickTimer^[10] (timerStartWithSeconds (some 10) initTimerState)).timer_remaining = 0 ∧
    (tickTimer^[10] (timerStartWithSeconds (some 10) initTimerState)).timer_running = false ∧
    (tickTimer^[10] (timerStartWithSeconds (some 10) initTimerState)).timer_finished = true ∧
    (∀ k : Nat,
      (tickTimer (tickTimer^[k] (tickTimer^[10] (timerStartWithSeconds (some 10) initTimerState)))).flash_on
        = !(tickTimer^[k] (tickTimer^[10] (timerStartWithSeconds (some 10) initTimerState))).flash_on ∧
      (tickTimer (tickTimer^[k] (tickTimer^[10] (timerStartWithSeconds (some 10) initTimerState)))).timer_remaining
        = (tickTimer^[k] (tickTimer^[10] (timerStartWithSeconds (some 10) initTimerState))).timer_remaining ∧
      (tickTimer (tickTimer^[k] (tickTimer^[10] (timerStartWithSeconds (some 10) initTimerState)))).timer_total
        = (tickTimer^[k] (tickTimer^[10] (timerStartWithSeconds (some 10) initTimerState))).timer_total ∧
      (tickTimer (tickTimer^[k] (tickTimer^[10] (timerStartWithSeconds (some 10) initTimerState)))).timer_active
        = (tickTimer^[k] (tickTimer^[10] (timerStartWithSeconds (some 10) initTimerState))).timer_active ∧
      (tickTimer (tickTimer^[k] (tickTimer^[10] (timerStartWithSeconds (some 10) initTimerState)))).timer_finished
        = (tickTimer^[k] (tickTimer^[10] (timerStartWithSeconds (some 10) initTimerState))).timer_finished) := by
  refine ⟨fun st => rfl, fun st => rfl, rfl, by decide, by decide, by decide,
    by decide, by decide, ?_⟩
  intro k
  have hb : (tickTimer^[10] (timerStartWithSeconds (some 10) initTimerState)).timer_active = true ∧
      (tickTimer^[10] (timerStartWithSeconds (some 10) initTimerState)).timer_finished = true ∧
      (tickTimer^[10] (timerStartWithSeconds (some 10) initTimerState)).timer_running = false := by
    decide
  obtain ⟨hba, hbf, hbr⟩ := hb
  obtain ⟨ka, kf, kr, _, _⟩ :=
    tickTimer_iterate_frozen _ k hba hbf hbr
  rw [tickTimer_finished_step _ ka kf kr]
  exact ⟨rfl, rfl, rfl, rfl, rfl⟩

/-- Claim C2: each timer operation (start from parsed input, start from a
menu preset, pause, reset, tick) preserves the timer invariant, and the
initial state satisfies it, so the invariant holds in every reachable
state. -/
theorem c2_timer_invariant_preservation (st : TimerState) (text : String)
    (s : Int) (hs : s ∈ timerPresets) (h : TimerInv st) :
    TimerInv initTimerState ∧
    TimerInv (timerStartFromInput_ text st) ∧
    TimerInv (timerStartPreset_ s st) ∧
    TimerInv (timerPause_ st) ∧
    TimerInv (timerReset_ st) ∧
    TimerInv (tickTimer st) := by
  obtain ⟨h1, h2, h3, h4⟩ := h
  refine ⟨by decide, timerStartWithSeconds_inv _ st ⟨h1, h2, h3, h4⟩, ?_, ?_, ?_,
    tickTimer_inv st ⟨h1, h2, h3, h4⟩⟩
  · have hpos : 0 < s := by
      simp only [timerPresets, List.mem_cons, List.not_mem_nil, or_false] at hs
      rcases hs with rfl | rfl | rfl | rfl | rfl <;> norm_num
    exact ⟨fun _ => rfl, fun hfin => by simp [timerStartPreset_] at hfin,
      by simp only [timerStartPreset_]; omega,
      le_refl s⟩
  · exact ⟨fun hrun => by simp [timerPause_] at hrun, fun hfin => ⟨(h2 hfin).1, (h2 hfin).2.1, rfl⟩, h3, h4⟩
  · exact ⟨fun hrun => by simp [timerReset_] at hrun, fun hfin => by simp [timerReset_] at hfin, le_refl 0, le_refl 0⟩

/-- Witness for claim C2 at a concrete state, input text and preset. -/
theorem c2_witness : TimerInv (tickTimer initTimerState) :=
  (c2_timer_invariant_preservation initTimerState ("05:00") 900 (by decide)
    (by decide)).2.2.2.2.2

/-- Claim C3 (refuted, code bug): the tick selector fires three times per
wall-clock second, not once, because both registered repeating timers
invoke it; consequently a countdown started at 10 seconds has
remaining = 7 after one second of wall time instead of 9, and the
finished-state flash toggles three times per second rather than at 1 Hz. -/
theorem c3_tick_fires_three_times_per_second :
    tickFiringsPerSecond = 3 ∧ tickFiringsPerSecond ≠ 1 ∧
    (tickTimer^[tickFiringsPerSecond]
        (timerStartWithSeconds (some 10) initTimerState)).timer_remaining = 7 ∧
    (7 : Int) ≠ 9 := by
  decide

/-! ## Claim theorems: the duration parser -/

/-- Claim C6: the duration parser accepts the three documented shapes with
positional weights, and rejects a non-numeric string. -/
theorem c6_parse_examples :
    _parseTimerInput ("01:02:03") = some 3723 ∧
    _parseTimerInput ("05:00") = some 300 ∧
    _parseTimerInput ("42") = some 42 ∧
    _parseTimerInput ("abc") = none := by
  decide

/-- Claim C10: the parser validates neither component ranges nor signs:
"1:-5" parses to 55 and "0:99" parses to 99, both positive, so the start
action mutates the timer state instead of rejecting them. -/
theorem c10_parser_skips_range_validation :
    _parseTimerInput ("1:-5") = some 55 ∧
    _parseTimerInput ("0:99") = some 99 ∧
    timerStartFromInput_ ("1:-5") initTimerState ≠ initTimerState ∧
    (timerStartFromInput_ ("1:-5") initTimerState).timer_active = true ∧
    (timerStartFromInput_ ("1:-5") initTimerState).timer_remaining = 55 ∧
    timerStartFromInput_ ("0:99") initTimerState ≠ initTimerState ∧
    (timerStartFromInput_ ("0:99") initTimerState).timer_active = true ∧
    (timerStartFromInput_ ("0:99") initTimerState).timer_remaining = 99 := by
  decide

/-- Claim C4 (refuted): the stored counters are not kept current while
showNetworkStats is off.  Concretely: counters start at (0, 0); one tick
passes with the feature off while the cumulative counters reach
(100, 100); the stored counters remain 0 instead of 100; on the next tick
the feature is on and the counters read (200, 200), and the computed
per-second delta is 200 — the whole disabled period — instead of the 100
bytes of the last one-tick interval. -/
theorem c4_counterexample :
    tickNet false (100, 100) (initNetState (0, 0)) = initNetState (0, 0) ∧
    (tickNet false (100, 100) (initNetState (0, 0))).last_bytes_sent = 0 ∧
    (0 : Nat) ≠ 100 ∧
    (tickNet true (200, 200)
        (tickNet false (100, 100) (initNetState (0, 0)))).net_up_speed = 200 ∧
    (200 : Int) ≠ 100 := by
  decide

/-- Claim C4 (amended): the stored cumulative counters persist unchanged
across any run of ticks while showNetworkStats is off — the tick never
touches them when the feature is hidden — and they are updated only on
ticks where the feature is visible; hence the first delta computed after
re-enabling equals the current counters minus the counters stored at the
last visible tick (or at startup), which spans the whole disabled
period. -/
theorem c4_counters_updated_only_when_visible
    (samples : List (Nat × Nat)) (c : Nat × Nat) (st : NetState) :
    (samples.foldl (fun s ci => tickNet false ci s) st = st) ∧
    (tickNet true c st).last_bytes_sent = c.1 ∧
    (tickNet true c st).last_bytes_recv = c.2 ∧
    (tickNet true c st).net_up_speed
      = (c.1 : Int) - (st.last_bytes_sent : Int) ∧
    (tickNet true c st).net_down_speed
      = (c.2 : Int) - (st.last_bytes_recv : Int) := by
  refine ⟨?_, rfl, rfl, rfl, rfl⟩
  induction samples with
  | nil => rfl
  | cons head tail ih => simp only [List.foldl_cons, tickNet, if_neg Bool.false_ne_true]; exact ih

/-! ## Helper lemmas for the configuration store -/

/-- Appending a pair makes its key present. -/
theorem dcontains_append_self (d : JDict) (k : String) (v : JValue) :
    dcontains (d ++ [(k, v)]) k = true := by
  simp [dcontains, List.any_append]

/-- setdefault makes its key present. -/
theorem dcontains_dsetdefault_self (d : JDict) (k : String) (v : JValue) :
    dcontains (dsetdefault d k v) k = true := by
  unfold dsetdefault
  split
  · assumption
  · exact dcontains_append_self d k v

/-- setdefault keeps present keys present. -/
theorem dcontains_dsetdefault_of (d : JDict) (k0 k : String) (v : JValue)
    (h : dcontains d k = true) : dcontains (dsetdefault d k0 v) k = true := by
  unfold dsetdefault
  split
  · exact h
  · unfold dcontains at h ⊢
    simp only [List.any_append, h, Bool.true_or]

/-- A setdefault fold keeps present keys present. -/
theorem dcontains_foldl_setdefault (l : List (String × JValue)) (d : JDict)
    (k : String) (h : dcontains d k = true) :
    dcontains (l.foldl (fun acc p => dsetdefault acc p.1 p.2) d) k = true := by
  induction l generalizing d with
  | nil => exact h
  | cons hd tl ih => exact ih _ (dcontains_dsetdefault_of _ hd.1 _ hd.2 h)

/-- A setdefault fold makes every folded key present. -/
theorem dcontains_foldl_setdefault_mem (l : List (String × JValue))
    (d : JDict) (kv : String × JValue) (h : kv ∈ l) :
    dcontains (l.foldl (fun acc p => dsetdefault acc p.1 p.2) d) kv.1 = true := by
  induction l generalizing d with
  | nil => cases h
  | cons hd tl ih =>
      rcases List.mem_cons.mp h with rfl | hmem
      · exact dcontains_foldl_setdefault tl _ _
          (dcontains_dsetdefault_self d kv.1 kv.2)
      · exact ih _ hmem

/-- A setdefault fold over keys that are all present is the identity. -/
theorem foldl_setdefault_id (l : List (String × JValue)) (d : JDict)
    (h : ∀ kv ∈ l, dcontains d kv.1 = true) :
    l.foldl (fun acc p => dsetdefault acc p.1 p.2) d = d := by
  induction l with
  | nil => rfl
  | cons hd tl ih =>
      have h1 : dsetdefault d hd.1 hd.2 = d := by
        unfold dsetdefault
        rw [if_pos (h hd (List.mem_cons_self hd tl))]
      rw [List.foldl_cons, h1]
      exact ih (fun kv hkv => h kv (List.mem_cons_of_mem hd hkv))

/-- Merging the defaults makes every DEFAULT_CONFIG key present. -/
theorem dcontains_mergeDefaults (cfg : JDict) (kv : String × JValue)
    (h : kv ∈ DEFAULT_CONFIG) : dcontains (mergeDefaults cfg) kv.1 = true :=
  dcontains_foldl_setdefault_mem DEFAULT_CONFIG cfg kv h

/-- Merging the defaults into a fully-populated document changes
nothing. -/
theorem mergeDefaults_id (cfg : JDict)
    (h : ∀ kv ∈ DEFAULT_CONFIG, dcontains cfg kv.1 = true) :
    mergeDefaults cfg = cfg :=
  foldl_setdefault_id DEFAULT_CONFIG cfg h

/-- Merging the defaults into the empty document yields exactly
DEFAULT_CONFIG. -/
theorem mergeDefaults_empty : mergeDefaults [] = DEFAULT_CONFIG := by
  rfl

/-! ## Claim theorems: the configuration store -/

/-- Claim C5 (refuted): load_config does raise to its caller on some
malformed content.  A config file whose content decodes to the JSON array
[] passes the "size" in cfg membership test but has no setdefault method,
so load_config raises AttributeError instead of returning the pure
defaults. -/
theorem c5_counterexample :
    load_config (FileContent.json (JValue.arr [])) =
      LoadResult.raised ("AttributeError") ∧
    load_config (FileContent.json (JValue.arr [])) ≠
      LoadResult.ok DEFAULT_CONFIG := by
  exact ⟨rfl, fun h => LoadResult.noConfusion h⟩

/-- Claim C5 (amended): load_config returns the pure defaults for a
missing file and for content that fails JSON decoding; content that
decodes to a JSON value that is not an object (and an object whose size
value is an array or object while scale is absent) makes it raise to the
caller; and whenever load_config does return a configuration, every key
of DEFAULT_CONFIG is populated in it. -/
theorem c5_load_defaults_or_raises (f : FileContent) (cfg : JDict)
    (h : load_config f = LoadResult.ok cfg) :
    load_config FileContent.missing = LoadResult.ok DEFAULT_CONFIG ∧
    load_config FileContent.notJson = LoadResult.ok DEFAULT_CONFIG ∧
    ∀ kv ∈ DEFAULT_CONFIG, dcontains cfg kv.1 = true := by
  refine ⟨congrArg LoadResult.ok mergeDefaults_empty,
    congrArg LoadResult.ok mergeDefaults_empty, ?_⟩
  intro kv hkv
  cases f with
  | missing =>
      injection h with h2
      rw [← h2]
      exact dcontains_mergeDefaults [] kv hkv
  | notJson =>
      injection h with h2
      rw [← h2]
      exact dcontains_mergeDefaults [] kv hkv
  | json j =>
      cases j with
      | obj cfg0 =>
          simp only [load_config] at h
          rcases hmig : migrateSize cfg0 with e | cfg2
          · rw [hmig] at h
            exact LoadResult.noConfusion h
          · rw [hmig] at h
            injection h with h2
            rw [← h2]
            exact dcontains_mergeDefaults cfg2 kv hkv
      | arr l =>
          simp only [load_config] at h
          split at h <;> exact LoadResult.noConfusion h
      | str s => exact LoadResult.noConfusion h
      | num q => exact LoadResult.noConfusion h
      | bool b => exact LoadResult.noConfusion h
      | null => exact LoadResult.noConfusion h

/-- Witness for claim C5: loading a missing file returns the defaults, and
that result has the scale key populated. -/
theorem c5_witness : dcontains DEFAULT_CONFIG ("scale") = true :=
  (c5_load_defaults_or_raises FileContent.missing DEFAULT_CONFIG
      (congrArg LoadResult.ok mergeDefaults_empty)).2.2
    (("scale"), JValue.num 1) (List.mem_cons_self _ _)

/-- Claim C7: for every configuration in which all DEFAULT_CONFIG keys are
present, loading right after saving returns exactly that configuration.
The migration branch is skipped because scale is present, and every
setdefault leaves the document unchanged. -/
theorem c7_save_load_round_trip (cfg : JDict)
    (h : ∀ kv ∈ DEFAULT_CONFIG, dcontains cfg kv.1 = true) :
    load_config (save_config cfg) = LoadResult.ok cfg := by
  have hscale : dcontains cfg ("scale") = true :=
    h (("scale"), JValue.num 1) (List.mem_cons_self _ _)
  have hmig : migrateSize cfg = Except.ok cfg := by
    unfold migrateSize
    rw [if_neg (by simp [hscale])]
  show (match migrateSize cfg with
    | .ok cfg2 => LoadResult.ok (mergeDefaults cfg2)
    | .error e => LoadResult.raised e) = LoadResult.ok cfg
  rw [hmig]
  show LoadResult.ok (mergeDefaults cfg) = LoadResult.ok cfg
  rw [mergeDefaults_id cfg h]

/-- Witness for claim C7 at the default configuration itself. -/
theorem c7_witness :
    load_config (save_config DEFAULT_CONFIG) = LoadResult.ok DEFAULT_CONFIG :=
  c7_save_load_round_trip DEFAULT_CONFIG
    (fun kv hkv => dcontains_foldl_setdefault_mem DEFAULT_CONFIG [] kv hkv)

/-! ## Helper lemmas for the layout arithmetic -/

/-- Truncation toward zero is monotone on nonnegative inputs. -/
theorem pyTrunc_mono_of_nonneg (a b : Rat) (ha : 0 ≤ a) (hab : a ≤ b) :
    pyTrunc a ≤ pyTrunc b := by
  unfold pyTrunc
  rw [if_pos ha, if_pos (le_trans ha hab)]
  exact Int.floor_le_floor hab

/-- Truncation of a nonnegative input is nonnegative. -/
theorem pyTrunc_nonneg (a : Rat) (ha : 0 ≤ a) : 0 ≤ pyTrunc a := by
  unfold pyTrunc
  rw [if_pos ha]
  exact Int.floor_nonneg.mpr ha

/-! ## Claim theorems: layout -/

/-- Claim C8 (refuted): the window height does not equal
baseHeight * scale * (1 + 0.42 * extraLineCount) exactly.  At scale 1.0
with an active timer, subtext, network stats and CPU enabled,
extraLineCount is 3; the code computes int(int(80 * 1.0) * 2.26) = 180,
while the claimed formula gives 180.8, and the height ratio against the
same configuration with the three lines disabled is 180 / 80 = 2.25, not
2.26. -/
theorem c8_counterexample :
    _extraLineCount ⟨1, true, true, true, true, false, false⟩
        (timerStartPreset_ 900 initTimerState) = 3 ∧
    (_windowSize ⟨1, true, true, true, true, false, false⟩
        (timerStartPreset_ 900 initTimerState)).2 = 180 ∧
    ((180 : Rat) ≠ BASE_HEIGHT * 1 * (1 + 0.42 * 3)) ∧
    (_windowSize ⟨1, true, false, false, false, false, false⟩
        (timerStartPreset_ 900 initTimerState)).2 = 80 ∧
    ((180 : Rat) / 80 ≠ 1 + 0.42 * 3) := by
  refine ⟨rfl, ?_, ?_, ?_, ?_⟩
  · show pyTrunc ((pyTrunc (BASE_HEIGHT * 1) : Rat) * (1 + (3 : Nat) * 0.42)) = 180
    norm_num [pyTrunc, BASE_HEIGHT]
  · norm_num [BASE_HEIGHT]
  · show pyTrunc (BASE_HEIGHT * 1) = 80
    norm_num [pyTrunc, BASE_HEIGHT]
  · norm_num

/-- Claim C8 (amended): the width is int(baseWidth * scale) and the height
is int(int(baseHeight * scale) * (1 + 0.42 * extraLineCount)) when extra
lines are visible (int truncating toward zero at each step), else
int(baseHeight * scale); with an active timer plus subtext, network stats
and CPU enabled, extraLineCount is 3 under any scale, and at scale 1.0 the
resulting height is 180 against 80 for the same configuration with the
three lines disabled — ratio 2.25, the stepwise-truncated value of the
documented formula. -/
theorem c8_window_size_formula (cfg : ClockConfig) (st : TimerState) :
    (_windowSize cfg st).1 = pyTrunc (BASE_WIDTH * cfg.scale) ∧
    (_windowSize cfg st).2 =
      (if 0 < _extraLineCount cfg st then
        pyTrunc ((pyTrunc (BASE_HEIGHT * cfg.scale) : Rat)
          * (1 + (_extraLineCount cfg st : Rat) * 0.42))
      else pyTrunc (BASE_HEIGHT * cfg.scale)) ∧
    _extraLineCount ⟨cfg.scale, cfg.show_seconds, true, true, true, false, false⟩
        (timerStartPreset_ 900 initTimerState) = 3 ∧
    (_windowSize ⟨1, true, true, true, true, false, false⟩
        (timerStartPreset_ 900 initTimerState)).2 = 180 ∧
    (_windowSize ⟨1, true, false, false, false, false, false⟩
        (timerStartPreset_ 900 initTimerState)).2 = 80 := by
  refine ⟨rfl, rfl, rfl, ?_, ?_⟩
  · show pyTrunc ((pyTrunc (BASE_HEIGHT * 1) : Rat) * (1 + (3 : Nat) * 0.42)) = 180
    norm_num [pyTrunc, BASE_HEIGHT]
  · show pyTrunc (BASE_HEIGHT * 1) = 80
    norm_num [pyTrunc, BASE_HEIGHT]

/-- Claim C9: for a fixed set of visible lines (the toggles and timer
state are fixed; the extra-line count does not depend on the scale), the
window width and height, the font size and the corner radius are
monotonically non-decreasing in the scale over [MIN_SCALE, MAX_SCALE]. -/
theorem c9_layout_monotone_in_scale (cfg : ClockConfig) (st : TimerState)
    (s1 s2 : Rat) (h1 : MIN_SCALE ≤ s1) (h12 : s1 ≤ s2)
    (_hmax : s2 ≤ MAX_SCALE) :
    (_windowSize { cfg with scale := s1 } st).1
      ≤ (_windowSize { cfg with scale := s2 } st).1 ∧
    (_windowSize { cfg with scale := s1 } st).2
      ≤ (_windowSize { cfg with scale := s2 } st).2 ∧
    _fontSize { cfg with scale := s1 } ≤ _fontSize { cfg with scale := s2 } ∧
    _cornerRadius { cfg with scale := s1 }
      ≤ _cornerRadius { cfg with scale := s2 } := by
  have hs1 : (0 : Rat) ≤ s1 := le_trans (by norm_num [MIN_SCALE]) h1
  have hw : ∀ c : Rat, 0 ≤ c → pyTrunc (c * s1) ≤ pyTrunc (c * s2) :=
    fun c hc => pyTrunc_mono_of_nonneg _ _ (mul_nonneg hc hs1)
      (mul_le_mul_of_nonneg_left h12 hc)
  refine ⟨?_, ?_, ?_, ?_⟩
  · exact hw BASE_WIDTH (by norm_num [BASE_WIDTH])
  · show (if 0 < _extraLineCount { cfg with scale := s1 } st then
        pyTrunc ((pyTrunc (BASE_HEIGHT * s1) : Rat)
          * (1 + (_extraLineCount { cfg with scale := s1 } st : Rat) * 0.42))
      else pyTrunc (BASE_HEIGHT * s1)) ≤
      (if 0 < _extraLineCount { cfg with scale := s1 } st then
        pyTrunc ((pyTrunc (BASE_HEIGHT * s2) : Rat)
          * (1 + (_extraLineCount { cfg with scale := s1 } st : Rat) * 0.42))
      else pyTrunc (BASE_HEIGHT * s2))
    by_cases h0 : 0 < _extraLineCount { cfg with scale := s1 } st
    · rw [if_pos h0, if_pos h0]
      have hb : (0 : Rat) ≤ BASE_HEIGHT := by norm_num [BASE_HEIGHT]
      have hm : (0 : Rat) ≤
          1 + (_extraLineCount { cfg with scale := s1 } st : Rat) * 0.42 := by
        positivity
      have hinner := hw BASE_HEIGHT hb
      have hcast : ((pyTrunc (BASE_HEIGHT * s1) : Int) : Rat)
          ≤ ((pyTrunc (BASE_HEIGHT * s2) : Int) : Rat) := Int.cast_le.mpr hinner
      have hinner0 : (0 : Rat) ≤ ((pyTrunc (BASE_HEIGHT * s1) : Int) : Rat) := by
        exact_mod_cast pyTrunc_nonneg _ (mul_nonneg hb hs1)
      exact pyTrunc_mono_of_nonneg _ _ (mul_nonneg hinner0 hm)
        (mul_le_mul_of_nonneg_right hcast hm)
    · rw [if_neg h0, if_neg h0]
      exact hw BASE_HEIGHT (by norm_num [BASE_HEIGHT])
  · exact max_le_max (le_refl 8) (hw BASE_FONT (by norm_num [BASE_FONT]))
  · exact max_le_max (le_refl 4) (hw BASE_RADIUS (by norm_num [BASE_RADIUS]))

/-- Witness for claim C9 at scales 1 and 2. -/
theorem c9_witness :
    _fontSize ⟨(1 : Rat), true, true, false, false, false, false⟩
      ≤ _fontSize ⟨(2 : Rat), true, true, false, false, false, false⟩ :=
  (c9_layout_monotone_in_scale ⟨1, true, true, false, false, false, false⟩
    initTimerState 1 2 (by norm_num [MIN_SCALE]) (by norm_num)
    (by norm_num [MAX_SCALE])).2.2.1

end Clock
